import Mathlib

/-!
Shallow embedding of the RPG-Journal progression & quest-scoring engine.

The repository contains several drifted copies of the same engine:
* `src/server/routes.ts` — the server route file (weight calculation without
  normalization, journal progression `updateCharacterProgress`, quest
  completion with linear level scaling and clamped difficulty multiplier);
* the second document bundled in `src/client/src/main.tsx` — an enhanced
  server copy (weight calculation WITH 2.0-normalization, quest completion
  with exponential level scaling and a different difficulty multiplier, and
  a completed-status guard);
* `src/client/src/lib/storage.ts` / `src/unnamed/part_009` — the client
  local-storage engine (quest template scoring and selection);
* `src/unnamed/part_005` — a quest-route draft whose reward application
  adds stat updates without clamping;
* `src/server/utils/storylineProcessor.ts` — storyline availability checks.

Numbers are modelled as exact rationals (`ℚ`), JavaScript `Math.round` as
`⌊q + 1/2⌋` (round half toward +∞), and integer quantities as `ℤ`/`ℕ`.
-/

namespace RPG

/-- The closed set of character stats (`StatWeights` keys in the source). -/
inductive Stat
  | strength | dexterity | constitution | intelligence | wisdom | charisma
  deriving DecidableEq, Repr, Fintype

/-- All six stats, in the declaration order of the source. -/
def Stat.all : List Stat :=
  [.strength, .dexterity, .constitution, .intelligence, .wisdom, .charisma]

/-- A total map from stats to rationals (stat values or weights). -/
def StatMap := Stat → ℚ

/-- JS `Math.max(lo, Math.min(hi, q))`. -/
def clampQ (lo hi q : ℚ) : ℚ := max lo (min hi q)

/-- JS `Math.round`: round half toward positive infinity. -/
def jsRound (q : ℚ) : ℤ := ⌊q + 1/2⌋

/-- Whether the pattern is an initial segment of the character list. -/
def leadsWith : List Char → List Char → Bool
  | [], _ => true
  | _ :: _, [] => false
  | p :: ps, c :: cs => p == c && leadsWith ps cs

/-- Whether `pat` occurs contiguously inside `hay`
(JS `String.prototype.includes`). -/
def charsContain (hay pat : List Char) : Bool :=
  match hay with
  | [] => pat.isEmpty
  | _ :: rest => leadsWith pat hay || charsContain rest pat

/-- JS `hay.includes(pat)` on strings. -/
def strIncludes (hay pat : String) : Bool :=
  charsContain hay.toList pat.toList

/-- JS `String.prototype.toLowerCase` (ASCII fragment). -/
def lowerStr (s : String) : String :=
  String.mk (s.toList.map Char.toLower)

/-- The `STAT_KEYWORDS` table — identical tables in `routes.ts`, `main.tsx` and
`storage.ts` (`statContexts`). -/
def STAT_KEYWORDS : Stat → List String
  | .strength => ["exercise", "physical", "strength", "power", "lifting", "sports"]
  | .dexterity => ["agility", "balance", "coordination", "reflex", "speed", "craft"]
  | .constitution => ["health", "endurance", "stamina", "wellness", "resilience"]
  | .intelligence => ["study", "learn", "research", "analysis", "problem-solving"]
  | .wisdom => ["reflection", "meditation", "insight", "awareness", "mindfulness"]
  | .charisma => ["social", "leadership", "communication", "persuasion", "empathy"]

/-- The analysis record consumed by the progression engine
(`interface Analysis` in `routes.ts`).  `statChanges` keeps its raw string
keys: keys that are not one of the six stats are ignored by the stat-update
loop, exactly as in the source. -/
structure Analysis where
  mood : String
  content : String
  tags : List String
  growthAreas : List String
  insights : List String
  skillsImproved : List String
  statChanges : List (String × ℚ)

/-- Map a `statChanges`/`statUpdates` string key to a stat, if it is one of
the six (`stats[stat] !== undefined` in the source). -/
def statOfName : String → Option Stat
  | "strength" => some .strength
  | "dexterity" => some .dexterity
  | "constitution" => some .constitution
  | "intelligence" => some .intelligence
  | "wisdom" => some .wisdom
  | "charisma" => some .charisma
  | _ => none

/-! ### Server copy of `calculateStatWeights` (`src/server/routes.ts` 90-138)

No normalization step: weights are whatever the multiplicative bonuses
produce. -/

/-- The `statMatches` count of the server copy: keywords occurring in the lowercased
content or inside some lowercased tag. -/
def serverStatMatches (content : String) (tags : List String) (s : Stat) : ℕ :=
  ((STAT_KEYWORDS s).filter fun kw =>
    strIncludes content kw || tags.any fun t => strIncludes (lowerStr t) kw).length

/-- Keyword step of the server copy: `baseWeights[stat] *= 1 + statMatches*0.1`
when `statMatches > 0`. -/
def serverKwWeight (content : String) (tags : List String) (s : Stat) : ℚ :=
  let m := serverStatMatches content tags s
  if 0 < m then 1 * (1 + (m : ℚ) * (1/10)) else 1

/-- Sentiment step of the server copy (`positive` boosts charisma and wisdom
by 1.1; `negative` boosts constitution by 1.1 and wisdom by 1.05). -/
def serverMoodFactor (sentiment : String) (s : Stat) : ℚ :=
  if sentiment = "positive" then
    (if s = .charisma then 11/10 else if s = .wisdom then 11/10 else 1)
  else if sentiment = "negative" then
    (if s = .constitution then 11/10 else if s = .wisdom then 21/20 else 1)
  else 1

/-- Function `calculateStatWeights` from `src/server/routes.ts`.  The source reads
`analysis.mood` with the JS-falsy empty string replaced by
`neutral`, lowercases `analysis.content` (empty when absent), multiplies intelligence
and wisdom by 1.1 when there is at least one insight, and finally scales
every weight by `1 + level*0.02`.  There is no normalization. -/
def calculateStatWeights (a : Analysis) (level : ℤ) : StatMap := fun s =>
  let sentiment := if a.mood = "" then "neutral" else a.mood
  let w1 := serverKwWeight (lowerStr a.content) a.tags s
  let w2 := w1 * serverMoodFactor sentiment s
  let w3 :=
    if a.insights ≠ [] ∧ (s = .intelligence ∨ s = .wisdom) then w2 * (11/10) else w2
  w3 * (1 + (level : ℚ) * (1/50))

/-! ### Enhanced copy of `calculateStatWeights` (`src/client/src/main.tsx`
124-211), with the 2.0-normalization step. -/

/-- Keyword step of the enhanced copy: context score
`(directMatches + 1.5 * tagMatches) / keywords.length`, applied as a
`1 + contextScore*0.15` multiplier when positive. -/
def clientKwWeight (content : String) (tags : List String) (s : Stat) : ℚ :=
  let kws := STAT_KEYWORDS s
  let direct := (kws.filter fun kw => strIncludes content kw).length
  let tagM : ℚ := ((kws.filter fun kw =>
    tags.any fun t => strIncludes (lowerStr t) kw).length : ℚ) * (3/2)
  let contextScore := ((direct : ℚ) + tagM) / (kws.length : ℚ)
  if 0 < contextScore then 1 * (1 + contextScore * (3/20)) else 1

/-- The `emotionalImpact` table of the enhanced copy; unknown moods fall back to
the `neutral` row (`|| emotionalImpact.neutral`). -/
def emotionalImpact (sentiment : String) (s : Stat) : ℚ :=
  if sentiment = "very positive" then
    (if s = .charisma then 23/20 else if s = .wisdom then 28/25 else
     if s = .constitution then 27/25 else 1)
  else if sentiment = "positive" then
    (if s = .charisma then 11/10 else if s = .wisdom then 27/25 else
     if s = .constitution then 21/20 else 1)
  else if sentiment = "negative" then
    (if s = .constitution then 28/25 else if s = .wisdom then 11/10 else
     if s = .strength then 27/25 else 1)
  else if sentiment = "very negative" then
    (if s = .constitution then 23/20 else if s = .wisdom then 28/25 else
     if s = .strength then 11/10 else 1)
  else -- the neutral row, also the fallback for unknown moods
    (if s = .wisdom then 21/20 else if s = .intelligence then 21/20 else 1)

/-- Insight step of the enhanced copy: every insight multiplies intelligence
by 1.08 and wisdom by 1.06. -/
def insightFactor (n : ℕ) (s : Stat) : ℚ :=
  if s = .intelligence then (27/25) ^ n
  else if s = .wisdom then (53/50) ^ n
  else 1

/-- Skill step of the enhanced copy: each improved skill multiplies by 1.05
every stat one of whose keywords occurs in the lowercased skill string. -/
def skillFactor (skills : List String) (s : Stat) : ℚ :=
  skills.foldl (fun w skill =>
    if (STAT_KEYWORDS s).any (fun k => strIncludes (lowerStr skill) k)
    then w * (21/20) else w) 1

/-- Pre-normalization weights of the enhanced copy.  The level factor
`1 + Math.log(level + 1) * 0.05` is a positive transcendental; it is taken
here as an explicit parameter `lvlScale` (every theorem below assumes only
`0 < lvlScale`, which the source value satisfies for every level ≥ 0). -/
def clientPreWeights (a : Analysis) (lvlScale : ℚ) : StatMap := fun s =>
  let sentiment := if a.mood = "" then "neutral" else a.mood
  clientKwWeight (lowerStr a.content) a.tags s
    * emotionalImpact sentiment s
    * insightFactor a.insights.length s
    * skillFactor a.skillsImproved s
    * lvlScale

/-- JS `Math.max(...Object.values(baseWeights))` over the six stats. -/
def maxW (w : StatMap) : ℚ :=
  max (w .strength) (max (w .dexterity) (max (w .constitution)
    (max (w .intelligence) (max (w .wisdom) (w .charisma)))))

/-- Normalization step of the enhanced copy: if any weight exceeds 2, divide
all weights by the maximum and multiply by 2. -/
def normalizeW (w : StatMap) : StatMap :=
  if 2 < maxW w then fun s => w s / maxW w * 2 else w

/-- Function `calculateStatWeights` from the enhanced copy in
`src/client/src/main.tsx` (keyword, mood, insight, skill and level steps,
then normalization to a maximum of 2). -/
def clientStatWeights (a : Analysis) (lvlScale : ℚ) : StatMap :=
  normalizeW (clientPreWeights a lvlScale)

/-! ### Characters and level formulas -/

/-- One achievement record (title, description, creation timestamp in
milliseconds). -/
structure Achievement where
  title : String
  description : String
  timestamp : ℤ

/-- The character record: level, xp, the six stats and the achievement
list. -/
structure Character where
  level : ℤ
  xp : ℚ
  stats : StatMap
  achievements : List Achievement

/-- Record `DEFAULT_CHARACTER` from `src/client/src/lib/storage.ts`: level 1,
xp 0, every stat 1, no achievements. -/
def DEFAULT_CHARACTER : Character :=
  { level := 1, xp := 0, stats := fun _ => 1, achievements := [] }

/-- JS `Math.floor(Math.pow(xp / 1000, 0.8)) + 1` for xp ≥ 0, embedded
exactly: since `0.8 = 4/5`, `k ≤ (xp/1000)^(4/5)` iff
`k^5 * 1000^4 ≤ xp^4` (both sides of each inequality are nonnegative), so
the floor is the greatest such `k`.  The search bound
`⌊xp⌋.toNat / 1000 + 2` exceeds `(xp/1000)^(4/5)` for every xp ≥ 0.
(For negative xp the source produces `NaN`; no claim exercises that.) -/
def levelPow (xp : ℚ) : ℤ :=
  (Nat.findGreatest (fun k => (k : ℚ) ^ 5 * 1000 ^ 4 ≤ xp ^ 4)
    (⌊xp⌋.toNat / 1000 + 2) : ℤ) + 1

/-- JS `Math.floor(xp / 1000) + 1`, the linear level formula used by the quest
completion handlers. -/
def levelLin (xp : ℚ) : ℤ := ⌊xp / 1000⌋ + 1

/-- The number of achievements whose timestamp lies within 7 days of `now`
(the filter of `calculateConsistencyBonus`: `(now - t) / 86400000 ≤ 7`; there is
no lower bound, exactly as in the source). -/
def recentCount (now : ℤ) (achs : List Achievement) : ℕ :=
  (achs.filter fun a => ((now : ℚ) - (a.timestamp : ℚ)) / 86400000 ≤ 7).length

/-- Function `calculateConsistencyBonus` from `src/server/routes.ts`: 5 xp per
achievement within the last 7 days of the current wall-clock time. -/
def calculateConsistencyBonus (now : ℤ) (c : Character) : ℤ :=
  (recentCount now c.achievements : ℤ) * 5

/-- One step of the `analysis.statChanges` loop in
`updateCharacterProgress` (`src/server/routes.ts` 184-195): keys that are
not one of the six stats are skipped; otherwise the weighted change is
bounded to [-1, 1], scaled by `1 + level*0.05`, added, and the stat is
clamped to [1, 10]. -/
def applyStatChange (level : ℤ) (weights : StatMap) (stats : StatMap)
    (kv : String × ℚ) : StatMap :=
  match statOfName kv.1 with
  | none => stats
  | some s => fun t =>
      if t = s then
        clampQ 1 10 (stats s + clampQ (-1) 1 (kv.2 * weights s) * (1 + (level : ℚ) * (1/20)))
      else stats t

/-- The xp gain of `updateCharacterProgress` (`src/server/routes.ts`
177-203): base xp `round(50 * 1.1^(level-1))` plus growth, insight, skill
and consistency bonuses, rounded. -/
def journalXpGain (now : ℤ) (a : Analysis) (c : Character) : ℤ :=
  let level : ℤ := if c.level = 0 then 1 else c.level
  let levelScaling : ℚ := (11/10 : ℚ) ^ (level - 1)
  let baseXP : ℤ := jsRound (50 * levelScaling)
  let growthBonus : ℚ := (a.growthAreas.length : ℚ) * (10 * levelScaling)
  let insightBonus : ℚ := (a.insights.length : ℚ) * (5 * levelScaling)
  let skillBonus : ℚ := (a.skillsImproved.length : ℚ) * (8 * levelScaling)
  let consistencyBonus : ℤ := calculateConsistencyBonus now c
  jsRound ((baseXP : ℚ) + growthBonus + insightBonus
    + skillBonus + (consistencyBonus : ℚ))

/-- Function `updateCharacterProgress` from `src/server/routes.ts` (the journal
progression path, `applyAnalysis`): exponential xp scaling
`1.1^(level-1)`, weighted clamped stat growth, growth/insight/skill/
consistency bonuses, and the sub-linear level formula
`floor((newXp/1000)^0.8) + 1`.  `now` is the wall-clock time used by the
consistency bonus and the new achievement timestamps. -/
def updateCharacterProgress (now : ℤ) (a : Analysis) (c : Character) : Character :=
  let level : ℤ := if c.level = 0 then 1 else c.level
  let weights := calculateStatWeights a level
  let stats' := a.statChanges.foldl (applyStatChange level weights) c.stats
  let newXp : ℚ := c.xp + (journalXpGain now a c : ℚ)
  { level := levelPow newXp
    xp := newXp
    stats := stats'
    achievements := c.achievements
      ++ a.insights.map fun i => ⟨"New Insight", i, now⟩ }

/-- The fallback analysis substituted in `POST /api/journals` when the
OpenAI call fails (`src/server/routes.ts` 347-357): neutral mood, empty
lists, and all-zero `statChanges` over the four wellness categories (none
of which is one of the six stats, so the stat loop skips them all). -/
def fallbackAnalysis : Analysis :=
  { mood := "neutral", content := "", tags := [], growthAreas := []
    insights := [], skillsImproved := []
    statChanges := [("wellness", 0), ("social", 0), ("growth", 0), ("achievement", 0)] }

/-! ### Quest-completion reward scaling -/

/-- A raw completion reward as returned by the external
`calculateQuestCompletion` call. -/
structure QuestRewards where
  xpGained : ℚ
  statUpdates : List (String × ℚ)
  achievements : List String

/-- A reward after scaling (the xp part has been `Math.round`ed). -/
structure ScaledRewards where
  xpGained : ℤ
  statUpdates : List (String × ℚ)
  achievements : List String

/-- JS `Math.max(1, Math.min(3, questDifficulty * DIFFICULTY_SCALING))` from
`src/server/routes.ts` 478 (`DIFFICULTY_SCALING = 0.2`). -/
def difficultyMultiplier (difficulty : ℤ) : ℚ :=
  max 1 (min 3 ((difficulty : ℚ) * (1/5)))

/-- The reward scaling of the server completion handler
(`src/server/routes.ts` 473-486): linear level scaling
`1 + level * 0.1`, clamped difficulty multiplier, rounded xp, and each
stat update scaled by `1 + level * 0.05` and bounded to [-1, 1].
`quest.difficulty || 1` makes a zero difficulty count as 1. -/
def scaleRewards (r : QuestRewards) (level : ℤ) (difficulty : ℤ) : ScaledRewards :=
  let questDifficulty : ℤ := if difficulty = 0 then 1 else difficulty
  let levelScaling : ℚ := 1 + (level : ℚ) * (1/10)
  let dm : ℚ := difficultyMultiplier questDifficulty
  { xpGained := jsRound (r.xpGained * levelScaling * dm)
    statUpdates := r.statUpdates.map fun kv =>
      (kv.1, clampQ (-1) 1 (kv.2 * (1 + (level : ℚ) * (1/20)) * dm))
    achievements := r.achievements }

/-- The character update of the server completion handler
(`src/server/routes.ts` 512-532): xp increases by the scaled reward, the
level is recomputed with the LINEAR formula `floor(xp/1000) + 1`, and each
updated stat is clamped to [1, 10] (`Object.fromEntries` reads every stat
from the original record, and a duplicate string key keeps its last
entry). -/
def applyRewardRoutes (now : ℤ) (r : ScaledRewards) (c : Character) : Character :=
  let newXp : ℚ := c.xp + (r.xpGained : ℚ)
  { level := levelLin newXp
    xp := newXp
    stats := fun s =>
      match ((r.statUpdates.filter fun kv => statOfName kv.1 = some s).map Prod.snd).getLast? with
      | none => c.stats s
      | some v => clampQ 1 10 ((if c.stats s = 0 then 1 else c.stats s) + v)
    achievements := c.achievements ++ r.achievements.map fun t => ⟨t, "", now⟩ }

/-- The reward application of the quest-route draft in
`src/unnamed/part_005` 56-98: stat updates are added WITHOUT any
clamping, xp increases by the raw `xpGained`, and the level is recomputed
with the sub-linear formula. -/
def applyReward005 (now : ℤ) (r : ScaledRewards) (c : Character) : Character :=
  let stats' := r.statUpdates.foldl (fun st kv =>
    match statOfName kv.1 with
    | none => st
    | some s => fun t => if t = s then st s + kv.2 else st t) c.stats
  let newXp : ℚ := c.xp + (r.xpGained : ℚ)
  { level := levelPow newXp
    xp := newXp
    stats := stats'
    achievements := c.achievements ++ r.achievements.map fun t => ⟨t, "", now⟩ }

/-! ### Quest records and the two completion handlers -/

/-- Quest status: `active` or `completed`. -/
inductive QStatus
  | active | completed
  deriving DecidableEq, Repr

/-- The part of a quest record touched by the completion handlers. -/
structure QuestRec where
  status : QStatus
  completedAt : Option ℤ
  difficulty : ℤ

/-- The server completion handler (`src/server/routes.ts` 445-539 on a
found quest): scales the reward with the CURRENT character level and the
quest difficulty, then unconditionally sets the quest to completed with a
fresh `completedAt` and applies the reward to the character.  There is no
check of the current quest status. -/
def completeQuestRoutes (now : ℤ) (raw : QuestRewards) (q : QuestRec)
    (c : Character) : QuestRec × Character :=
  let scaled := scaleRewards raw c.level q.difficulty
  ({ q with status := .completed, completedAt := some now },
   applyRewardRoutes now scaled c)

/-- The xp scaling of the enhanced completion handler
(`src/client/src/main.tsx` 911-916): EXPONENTIAL level scaling
`1.1^(level-1)` and difficulty multiplier
`1 + (difficulty - 1) * 0.2` (with `quest.difficulty || 1`). -/
def mainScaledXp (rawXp : ℚ) (level : ℤ) (difficulty : ℤ) : ℤ :=
  let d : ℤ := if difficulty = 0 then 1 else difficulty
  jsRound (rawXp * (11/10 : ℚ) ^ (level - 1) * (1 + ((d : ℚ) - 1) * (1/5)))

/-- The enhanced completion handler (`src/client/src/main.tsx` 884-960):
rejects a quest that is already completed (`return 400`, modelled as
`none`); otherwise scales xp with `mainScaledXp`, scales stat updates with
its difficulty multiplier, recomputes the level linearly, and clamps each
updated stat to [MIN_STAT_VALUE, MAX_STAT_VALUE] = [1, 20] sequentially. -/
def completeQuestMain (now : ℤ) (raw : QuestRewards) (q : QuestRec)
    (c : Character) : Option (QuestRec × Character) :=
  if q.status = .completed then none
  else
    let d : ℤ := if q.difficulty = 0 then 1 else q.difficulty
    let dm : ℚ := 1 + ((d : ℚ) - 1) * (1/5)
    let xpG : ℤ := mainScaledXp raw.xpGained c.level q.difficulty
    let statUpd := raw.statUpdates.map fun kv =>
      (kv.1, clampQ (-1) 1 (kv.2 * (1 + (c.level : ℚ) * (1/20)) * dm))
    let stats' := statUpd.foldl (fun st kv =>
      match statOfName kv.1 with
      | none => st
      | some s => fun t => if t = s then clampQ 1 20 (st s + kv.2) else st t) c.stats
    let newXp : ℚ := c.xp + (xpG : ℚ)
    some ({ q with status := .completed, completedAt := some now },
      { level := levelLin newXp
        xp := newXp
        stats := stats'
        achievements := c.achievements
          ++ raw.achievements.map fun t => ⟨t, "", now⟩ })

/-! ### Engine traces over the server route implementations -/

/-- One engine call on the server route file: a journal progression
(`updateCharacterProgress`) or a quest-completion reward application
(`scaleRewards` followed by the character update). -/
inductive EngineOp where
  | journal (now : ℤ) (a : Analysis)
  | reward (now : ℤ) (raw : QuestRewards) (difficulty : ℤ)

/-- Run one engine call on a character. -/
def runOp (c : Character) : EngineOp → Character
  | .journal now a => updateCharacterProgress now a c
  | .reward now raw d => applyRewardRoutes now (scaleRewards raw c.level d) c

/-- Run a sequence of engine calls. -/
def runOps (c : Character) (ops : List EngineOp) : Character :=
  ops.foldl runOp c

/-! ### Quest scoring and selection
(`src/client/src/lib/storage.ts` 224-257 and 531-607; identical in
`src/unnamed/part_009`).  Template stat requirements and rewards are keyed
by genuine stat names, so they are modelled as `List (Stat × ℚ)`. -/

/-- A quest template / candidate quest as scored by
`generateQuestsFromAnalysis`. -/
structure QTemplate where
  title : String
  difficulty : ℤ
  reqs : List (Stat × ℚ)
  rews : List (Stat × ℚ)

/-- Function `calculateAchievabilityScore`: full credit for a met requirement,
otherwise `max(0, current/required)`; average over requirements; 1 when
there are none. -/
def achievabilityScore (reqs : List (Stat × ℚ)) (stats : StatMap) : ℚ :=
  if reqs = [] then 1
  else ((reqs.map fun rv =>
    if rv.2 ≤ stats rv.1 then 1 else max 0 (stats rv.1 / rv.2)).sum)
    / (reqs.length : ℚ)

/-- The per-stat growth potential `Math.max(0, 10 - value) / 10`. -/
def growthPotential (stats : StatMap) : StatMap := fun s =>
  max 0 (10 - stats s) / 10

/-- Function `calculateGrowthScore`: average of `reward * potential`, capped at 1;
0.5 when there are no rewards. -/
def growthScore (rews : List (Stat × ℚ)) (gp : StatMap) : ℚ :=
  if rews = [] then 1/2
  else min 1 ((rews.map fun rv => rv.2 * gp rv.1).sum / (rews.length : ℚ))

/-- Function `calculateBalanceScore`: the value `max(0, 1 - avgDifference/5)` over the
absolute current-vs-required differences; 1 when there are no
requirements. -/
def balanceScore (reqs : List (Stat × ℚ)) (stats : StatMap) : ℚ :=
  if reqs = [] then 1
  else max 0 (1 - ((reqs.map fun rv => |stats rv.1 - rv.2|).sum
    / (reqs.length : ℚ)) / 5)

/-- The composite suitability score
`achievability*0.4 + growth*0.4 + balance*0.2`. -/
def finalScore (t : QTemplate) (stats : StatMap) : ℚ :=
  achievabilityScore t.reqs stats * (2/5)
    + growthScore t.rews (growthPotential stats) * (2/5)
    + balanceScore t.reqs stats * (1/5)

/-- The meetable-requirements admission filter applied to the sliced
quests: a requirement is meetable when `current >= required` or
`current >= required - 2`, and the quest passes when there are no
requirements or at least 70% are meetable. -/
def meetableFilter (stats : StatMap) (t : QTemplate) : Bool :=
  if t.reqs = [] then true
  else
    let meet := (t.reqs.filter fun rv =>
      rv.2 ≤ stats rv.1 ∨ rv.2 - 2 ≤ stats rv.1).length
    decide (t.reqs.length = 0 ∨ (7/10 : ℚ) ≤ (meet : ℚ) / (t.reqs.length : ℚ))

/-- Insert a scored quest into a list already sorted by descending score,
in front of the first entry whose score it matches or beats.  Folding the
input from the right therefore reproduces the stable descending JS sort
`(a, b) => b.score - a.score` (ties keep input order). -/
def insertDesc (x : QTemplate × ℚ) : List (QTemplate × ℚ) → List (QTemplate × ℚ)
  | [] => [x]
  | y :: ys => if y.2 ≤ x.2 then x :: y :: ys else y :: insertDesc x ys

/-- Stable descending sort by score. -/
def sortDesc (l : List (QTemplate × ℚ)) : List (QTemplate × ℚ) :=
  l.foldr insertDesc []

/-- The top-5 slice of the sorted scored candidates (before the meetable
filter), as produced by `.sort(...).slice(0, 5).map(({quest}) => quest)`. -/
def topFive (candidates : List QTemplate) (stats : StatMap) : List QTemplate :=
  ((sortDesc (candidates.map fun t => (t, finalScore t stats))).take 5).map Prod.fst

/-- The selection pipeline of `generateQuestsFromAnalysis`
(`src/client/src/lib/storage.ts` 549-606): score every candidate, sort
descending by score (ties by input order), take the top 5, and only THEN
discard quests failing the meetable-requirements filter. -/
def selectQuests (candidates : List QTemplate) (stats : StatMap) : List QTemplate :=
  (topFive candidates stats).filter (meetableFilter stats)

/-- The `QUEST_TEMPLATES` table from `src/client/src/lib/storage.ts`, flattened in
category order (wellness, social, growth, achievement) exactly as
`categories.flatMap` enumerates them. -/
def QUEST_TEMPLATES : List QTemplate :=
  [ ⟨"Morning Exercise", 2, [(.constitution, 2)], [(.strength, 1/5), (.constitution, 3/10)]⟩
  , ⟨"Healthy Meal", 1, [(.wisdom, 1)], [(.constitution, 1/5), (.wisdom, 1/10)]⟩
  , ⟨"Meditation", 1, [(.wisdom, 2)], [(.wisdom, 3/10), (.charisma, 1/10)]⟩
  , ⟨"Social Connection", 1, [(.charisma, 1)], [(.charisma, 1/5), (.wisdom, 1/10)]⟩
  , ⟨"Group Activity", 2, [(.charisma, 2), (.constitution, 1)], [(.charisma, 3/10), (.strength, 1/10)]⟩
  , ⟨"Kind Gesture", 1, [(.wisdom, 1), (.charisma, 1)], [(.charisma, 1/5), (.wisdom, 1/5)]⟩
  , ⟨"Skill Development", 2, [(.intelligence, 2)], [(.intelligence, 3/10), (.wisdom, 1/10)]⟩
  , ⟨"Reading Quest", 1, [(.intelligence, 1)], [(.intelligence, 1/5), (.wisdom, 1/5)]⟩
  , ⟨"Creative Expression", 2, [(.intelligence, 1), (.charisma, 1)], [(.charisma, 1/5), (.intelligence, 1/5)]⟩
  , ⟨"Goal Setting", 2, [(.wisdom, 2), (.intelligence, 1)], [(.wisdom, 1/5), (.intelligence, 1/5)]⟩
  , ⟨"Task Completion", 2, [(.intelligence, 2)], [(.intelligence, 3/10), (.wisdom, 1/10)]⟩
  , ⟨"Skill Mastery", 3, [(.intelligence, 3), (.wisdom, 2)], [(.intelligence, 2/5), (.wisdom, 1/5)]⟩ ]

/-! ### Storyline availability (`src/server/utils/storylineProcessor.ts`) -/

/-- The quest fields read by `isQuestAvailable`. -/
structure AvailQuest where
  difficulty : ℤ
  statRequirements : List (Stat × ℚ)

/-- Function `isQuestAvailable` (`src/server/utils/storylineProcessor.ts` 133-167):
rejects when the (truthy) difficulty exceeds the character level, then
when some stat requirement is unmet.  The final storyline-prerequisite
check runs `processStorylines` on the SINGLETON list `[quest]`, whose one
node never receives `previousQuests` (the `index > 0` branch is
unreachable), so that check always passes; it is embedded as the
trivially-satisfied `List.all` over the empty prerequisite list. -/
def isQuestAvailable (q : AvailQuest) (completedQuests : List ℤ)
    (stats : StatMap) (level : ℤ) : Bool :=
  if q.difficulty ≠ 0 ∧ level < q.difficulty then false
  else
    (q.statRequirements.all fun rv => !(stats rv.1 < rv.2))
      && (([] : List ℤ).all fun i => completedQuests.contains i)

/-! ### Definitions written from the words of the spec (for refinement claims) -/

/-- The completion-xp formula exactly as the spec states it:
`round(rawXp * (1 + level * 0.1) * clamp(difficulty * 0.2, 1, 3))`. -/
def specScaledXp (rawXp : ℚ) (level difficulty : ℤ) : ℤ :=
  jsRound (rawXp * (1 + (level : ℚ) * (1/10)) * clampQ 1 3 ((difficulty : ℚ) * (1/5)))

/-- The completion stat-update formula exactly as the spec states it:
`clamp(rawValue * (1 + level * 0.05) * difficultyMultiplier, -1, 1)`. -/
def specScaledStat (v : ℚ) (level difficulty : ℤ) : ℚ :=
  clampQ (-1) 1 (v * (1 + (level : ℚ) * (1/20)) * clampQ 1 3 ((difficulty : ℚ) * (1/5)))

/-- The stats used in the C5 counterexample: intelligence 0.9 and wisdom 2
leave `Skill Mastery` highly scored (5th) yet with only 1 of its 2
requirements meetable. -/
def exStatsC5 : StatMap := fun s =>
  match s with
  | .strength => 10 | .dexterity => 10 | .constitution => 10
  | .intelligence => 9/10 | .wisdom => 2 | .charisma => 10

/-- The analysis used in the C3 counterexample: all five wisdom keywords in
the content, positive mood, and one insight. -/
def exAnalysisC3 : Analysis :=
  { mood := "positive"
    content := "reflection meditation insight awareness mindfulness"
    tags := [], growthAreas := [], insights := ["i"], skillsImproved := []
    statChanges := [] }

/-- A character with one achievement at epoch time 0, used to exhibit the
wall-clock dependence of the consistency bonus. -/
def achvCharacter : Character :=
  { DEFAULT_CHARACTER with achievements := [⟨"a", "", 0⟩] }

/-! ## Theorems -/

/-- C10: for every difficulty in the legal range 1..5, the server
difficulty multiplier of the completion handler, `clamp(difficulty * 0.2, 1, 3)`
is exactly 1, so the scaled xp is `round(rawXp * (1 + level * 0.1))` and
quest difficulty has no effect on the reward. -/
theorem difficulty_multiplier_one (d : ℤ) (h1 : 1 ≤ d) (h5 : d ≤ 5) :
    difficultyMultiplier d = 1 ∧
    ∀ (r : QuestRewards) (level : ℤ),
      (scaleRewards r level d).xpGained
        = jsRound (r.xpGained * (1 + (level : ℚ) * (1/10))) := by
  have hd5 : (d : ℚ) * (1/5) ≤ 1 := by
    have : (d : ℚ) ≤ 5 := by exact_mod_cast h5
    linarith
  have hm : difficultyMultiplier d = 1 := by
    unfold difficultyMultiplier
    rw [min_eq_right (by linarith : (d : ℚ) * (1/5) ≤ 3)]
    exact max_eq_left hd5
  refine ⟨hm, fun r level => ?_⟩
  have hdz : ¬ d = 0 := by omega
  simp only [scaleRewards, if_neg hdz, hm, mul_one]

/-- Witness for `difficulty_multiplier_one` at difficulty 3, raw xp 100,
level 2. -/
theorem difficulty_multiplier_one_witness :
    difficultyMultiplier 3 = 1 ∧
    (scaleRewards ⟨100, [], []⟩ 2 3).xpGained
      = jsRound (100 * (1 + (2 : ℚ) * (1/10))) :=
  ⟨(difficulty_multiplier_one 3 (by norm_num) (by norm_num)).1,
   (difficulty_multiplier_one 3 (by norm_num) (by norm_num)).2 ⟨100, [], []⟩ 2⟩

/-- C4 (amended): the SERVER completion handler (`src/server/routes.ts`)
scales rewards exactly as the formulas of the claim state, for every raw
reward, level and difficulty ≥ 1.  (The client-bundle duplicate handler
does not — see the counterexample.) -/
theorem reward_scaling_matches_spec (r : QuestRewards) (level d : ℤ) (hd : 1 ≤ d) :
    (scaleRewards r level d).xpGained = specScaledXp r.xpGained level d ∧
    (scaleRewards r level d).statUpdates
      = r.statUpdates.map fun kv => (kv.1, specScaledStat kv.2 level d) := by
  have hdz : ¬ d = 0 := by omega
  constructor
  · simp only [scaleRewards, if_neg hdz, specScaledXp, difficultyMultiplier, clampQ]
  · simp only [scaleRewards, if_neg hdz, specScaledStat, difficultyMultiplier, clampQ]

/-- Witness for `reward_scaling_matches_spec` at raw xp 100 with one stat
update, level 2, difficulty 3. -/
theorem reward_scaling_matches_spec_witness :
    (scaleRewards ⟨100, [("strength", 1/2)], []⟩ 2 3).xpGained = specScaledXp 100 2 3 ∧
    (scaleRewards ⟨100, [("strength", 1/2)], []⟩ 2 3).statUpdates
      = [("strength", specScaledStat (1/2) 2 3)] :=
  ⟨(reward_scaling_matches_spec ⟨100, [("strength", 1/2)], []⟩ 2 3 (by norm_num)).1,
   (reward_scaling_matches_spec ⟨100, [("strength", 1/2)], []⟩ 2 3 (by norm_num)).2⟩

/-- C4 counterexample: the client-bundle completion handler
(`completeQuestMain`, from `src/client/src/main.tsx`) applied to an active
difficulty-3 quest at level 2 with raw xp 100 yields xp 154
(`round(100 * 1.1^(2-1) * (1 + 2*0.2))`), while the formula of the claim
predicts `round(100 * 1.2 * 1) = 120`. -/
theorem reward_scaling_counterexample :
    ((completeQuestMain 0 ⟨100, [], []⟩ ⟨.active, none, 3⟩
        { DEFAULT_CHARACTER with level := 2 }).map fun p => p.2.xp) = some 154 ∧
    specScaledXp 100 2 3 = 120 ∧ (154 : ℚ) ≠ 120 := by
  refine ⟨?_, ?_, by norm_num⟩
  · norm_num [completeQuestMain, mainScaledXp, jsRound, DEFAULT_CHARACTER]
    exact ⟨_, _, ⟨by simp, rfl, rfl⟩, rfl⟩
  · norm_num [specScaledXp, jsRound, clampQ, max_def, min_def]

/-- C8 (amended): the client-bundle completion handler refuses to complete
an already-completed quest (no mutation at all), both handlers only ever
move a quest status to `completed`, and a successful completion by the
client-bundle handler starts from an active quest and stamps a fresh
`completedAt`.  The SERVER handler, however, performs its update without
any status guard — see the counterexample. -/
theorem completion_status_guard (now : ℤ) (raw : QuestRewards) (q : QuestRec)
    (c : Character) :
    (q.status = .completed → completeQuestMain now raw q c = none) ∧
    (completeQuestRoutes now raw q c).1.status = .completed ∧
    (∀ p, completeQuestMain now raw q c = some p →
      q.status = .active ∧ p.1.status = .completed ∧ p.1.completedAt = some now) := by
  refine ⟨fun h => by simp [completeQuestMain, h], rfl, fun p hp => ?_⟩
  rcases hq : q.status with _ | _
  · rw [completeQuestMain, if_neg (by simp [hq])] at hp
    cases hp
    exact ⟨rfl, rfl, rfl⟩
  · rw [completeQuestMain, if_pos (by simp [hq])] at hp
    exact absurd hp (by simp)

/-- Witness for `completion_status_guard`: a completed quest is rejected by
the client-bundle handler, and the server handler marks a quest
completed. -/
theorem completion_status_guard_witness :
    completeQuestMain 0 ⟨0, [], []⟩ ⟨.completed, some 5, 1⟩ DEFAULT_CHARACTER = none ∧
    (completeQuestRoutes 0 ⟨0, [], []⟩ ⟨.active, none, 1⟩ DEFAULT_CHARACTER).1.status
      = .completed :=
  ⟨(completion_status_guard 0 ⟨0, [], []⟩ ⟨.completed, some 5, 1⟩ DEFAULT_CHARACTER).1 rfl,
   (completion_status_guard 0 ⟨0, [], []⟩ ⟨.active, none, 1⟩ DEFAULT_CHARACTER).2.1⟩

/-- C8 counterexample: the SERVER completion handler
(`src/server/routes.ts` 445-539) applied to a quest that is ALREADY
completed (completedAt = 111) re-applies the reward (character xp goes
from 0 to 110) and overwrites `completedAt` with the new time 999: the
status transition is not one-way-guarded and `completedAt` is not set
exactly once. -/
theorem completion_status_counterexample :
    (completeQuestRoutes 999 ⟨100, [], []⟩ ⟨.completed, some 111, 2⟩
      DEFAULT_CHARACTER).2.xp = 110 ∧
    DEFAULT_CHARACTER.xp = 0 ∧
    (completeQuestRoutes 999 ⟨100, [], []⟩ ⟨.completed, some 111, 2⟩
      DEFAULT_CHARACTER).1.completedAt = some 999 ∧
    some (999 : ℤ) ≠ some 111 := by
  refine ⟨?_, rfl, rfl, by norm_num⟩
  norm_num [completeQuestRoutes, applyRewardRoutes, scaleRewards,
    difficultyMultiplier, jsRound, DEFAULT_CHARACTER, max_def, min_def]

/-- C9 (amended): the progression update is a function of the
stats, xp, level and the count of achievements recent relative to the
wall-clock time `now` — in particular it is deterministic once `now` is
fixed, and independent of achievement titles and descriptions. -/
theorem progression_clock_determinism (now : ℤ) (a : Analysis) (c₁ c₂ : Character)
    (hs : c₁.stats = c₂.stats) (hx : c₁.xp = c₂.xp) (hl : c₁.level = c₂.level)
    (hr : recentCount now c₁.achievements = recentCount now c₂.achievements) :
    (updateCharacterProgress now a c₁).stats = (updateCharacterProgress now a c₂).stats ∧
    (updateCharacterProgress now a c₁).xp = (updateCharacterProgress now a c₂).xp ∧
    (updateCharacterProgress now a c₁).level = (updateCharacterProgress now a c₂).level := by
  simp [updateCharacterProgress, journalXpGain, calculateConsistencyBonus, hs, hx, hl, hr]

/-- Witness for `progression_clock_determinism`: two characters differing
only in achievement titles/descriptions/timestamps (same recent count)
progress identically. -/
theorem progression_clock_determinism_witness :
    (updateCharacterProgress 0 fallbackAnalysis achvCharacter).xp
      = (updateCharacterProgress 0 fallbackAnalysis
          { DEFAULT_CHARACTER with achievements := [⟨"b", "other", 5⟩] }).xp :=
  (progression_clock_determinism 0 fallbackAnalysis achvCharacter
    { DEFAULT_CHARACTER with achievements := [⟨"b", "other", 5⟩] }
    rfl rfl rfl (by norm_num [recentCount, achvCharacter, DEFAULT_CHARACTER])).2.1

/-- C9 counterexample: with the SAME character and the SAME analysis, the
journal progression of `src/server/routes.ts` yields xp 55 when run at
wall-clock time 0 (the achievement is "recent", consistency bonus 5) but
xp 50 when run 8 days later — the xp output, not merely a timestamp
field, depends on the wall clock. -/
theorem progression_clock_counterexample :
    (updateCharacterProgress 0 fallbackAnalysis achvCharacter).xp = 55 ∧
    (updateCharacterProgress 691200000 fallbackAnalysis achvCharacter).xp = 50 ∧
    (55 : ℚ) ≠ 50 := by
  refine ⟨?_, ?_, by norm_num⟩
  · norm_num [updateCharacterProgress, journalXpGain, fallbackAnalysis,
      calculateConsistencyBonus, recentCount, achvCharacter, DEFAULT_CHARACTER, jsRound]
  · norm_num [updateCharacterProgress, journalXpGain, fallbackAnalysis,
      calculateConsistencyBonus, recentCount, achvCharacter, DEFAULT_CHARACTER, jsRound]

/-- C6 (amended): the storyline availability check `isQuestAvailable`
(`src/server/utils/storylineProcessor.ts`) does reject every quest whose
(positive) difficulty exceeds the character level.  (The quest selector
`generateQuestsFromAnalysis` applies no such gate — see the
counterexample.) -/
theorem difficulty_gate_storyline (q : AvailQuest) (completed : List ℤ)
    (stats : StatMap) (level : ℤ) (hd : 1 ≤ q.difficulty)
    (h : isQuestAvailable q completed stats level = true) :
    q.difficulty ≤ level := by
  by_contra hlt
  rw [isQuestAvailable, if_pos ⟨by omega, by omega⟩] at h
  exact Bool.false_ne_true h

/-- Witness for `difficulty_gate_storyline`: a difficulty-2 quest available
to a level-3 character indeed has difficulty ≤ 3. -/
theorem difficulty_gate_storyline_witness :
    (1 : ℤ) ≤ (2 : ℤ) ∧ isQuestAvailable ⟨2, []⟩ [] (fun _ => 1) 3 = true ∧ (2 : ℤ) ≤ 3 :=
  ⟨by norm_num, by decide,
   difficulty_gate_storyline ⟨2, []⟩ [] (fun _ => 1) 3 (by norm_num) (by decide)⟩

/-- C6 counterexample: the quest selector (`generateQuestsFromAnalysis`,
`src/client/src/lib/storage.ts` 531-607) run for the default character
(level 1, all stats 1) returns a quest of difficulty 2 ("Creative
Expression"): no difficulty-vs-level gate is applied before (or after)
scoring. -/
theorem difficulty_gate_counterexample :
    DEFAULT_CHARACTER.level = 1 ∧
    ((selectQuests QUEST_TEMPLATES DEFAULT_CHARACTER.stats).any fun t =>
      decide (DEFAULT_CHARACTER.level < t.difficulty)) = true := by
  refine ⟨rfl, ?_⟩
  norm_num [selectQuests, topFive, sortDesc, insertDesc, meetableFilter, finalScore,
    achievabilityScore, growthScore, balanceScore, growthPotential, QUEST_TEMPLATES,
    DEFAULT_CHARACTER, max_def, min_def, List.cons_ne_nil, ne_eq, List.any, List.filter]

/-- C5 (amended): for every candidate pool and character stats, the
selection pipeline scores and stably sorts ALL candidates, takes the top
5, and only then applies the meetable-requirements filter; consequently at
most 5 quests are returned, and a quest with no stat requirements that
reached the top 5 is never discarded by the filter.  (Because the filter
runs after the slice, fewer than 5 quests can be returned even when at
least 5 candidates pass the filter — see the counterexample.) -/
theorem quest_selection_pipeline (candidates : List QTemplate) (stats : StatMap) :
    (selectQuests candidates stats).length ≤ 5 ∧
    ∀ t ∈ topFive candidates stats, t.reqs = [] → t ∈ selectQuests candidates stats := by
  constructor
  · calc (selectQuests candidates stats).length
        ≤ (topFive candidates stats).length := List.length_filter_le _ _
      _ ≤ 5 := by
          simp only [topFive, List.length_map]
          exact (List.length_take_le 5 _)
  · intro t ht hreqs
    refine List.mem_filter.mpr ⟨ht, ?_⟩
    simp [meetableFilter, hreqs]

/-- Witness for `quest_selection_pipeline`: a single zero-requirement
candidate is selected and the bound holds. -/
theorem quest_selection_pipeline_witness :
    (selectQuests [⟨"Zero", 1, [], []⟩] (fun _ => 1)).length ≤ 5 ∧
    (⟨"Zero", 1, [], []⟩ : QTemplate) ∈ selectQuests [⟨"Zero", 1, [], []⟩] (fun _ => 1) :=
  ⟨(quest_selection_pipeline [⟨"Zero", 1, [], []⟩] (fun _ => 1)).1,
   (quest_selection_pipeline [⟨"Zero", 1, [], []⟩] (fun _ => 1)).2
     ⟨"Zero", 1, [], []⟩
     (by simp [topFive, sortDesc, insertDesc]) rfl⟩

/-- C5 counterexample: with stats (10, 10, 10, 0.9, 2, 10) eleven of the
twelve `QUEST_TEMPLATES` pass the meetable-requirements filter, yet the
selector returns only FOUR quests: "Skill Mastery" lands in the top 5 by
score and is then discarded by the filter (its intelligence-3 requirement
is not within the 2-point grace of 0.9), so the filter demonstrably runs
AFTER the top-5 slice, and "at least 5 pass the filter" does not give 5
results. -/
theorem quest_selection_counterexample :
    5 ≤ (QUEST_TEMPLATES.filter (meetableFilter exStatsC5)).length ∧
    (selectQuests QUEST_TEMPLATES exStatsC5).length = 4 := by
  constructor
  · norm_num [QUEST_TEMPLATES, meetableFilter, exStatsC5, List.filter,
      List.cons_ne_nil, ne_eq]
  · norm_num [selectQuests, topFive, sortDesc, insertDesc, meetableFilter, finalScore,
      achievabilityScore, growthScore, balanceScore, growthPotential, QUEST_TEMPLATES,
      exStatsC5, max_def, min_def, abs_eq_max_neg, List.cons_ne_nil, ne_eq, List.filter]

/-! ### Helper lemmas (clamping, rounding, level formulas, weights) -/

/-- Both clamp bounds hold when `lo ≤ hi`. -/
theorem clampQ_mem (lo hi q : ℚ) (h : lo ≤ hi) :
    lo ≤ clampQ lo hi q ∧ clampQ lo hi q ≤ hi :=
  ⟨le_max_left _ _, max_le h (min_le_left _ _)⟩

/-- JS `Math.round` is monotone. -/
theorem jsRound_mono {q r : ℚ} (h : q ≤ r) : jsRound q ≤ jsRound r :=
  Int.floor_le_floor (by linarith)

/-- JS `Math.round` of a nonnegative number is nonnegative. -/
theorem jsRound_nonneg {q : ℚ} (h : 0 ≤ q) : 0 ≤ jsRound q :=
  Int.le_floor.mpr (by push_cast; linarith)

/-- Cast form of `jsRound_nonneg`. -/
theorem jsRound_cast_nonneg {q : ℚ} (h : 0 ≤ q) : (0 : ℚ) ≤ ((jsRound q : ℤ) : ℚ) := by
  exact_mod_cast jsRound_nonneg h

/-- The journal xp gain is never negative (base xp and every bonus are
nonnegative). -/
theorem journalXpGain_nonneg (now : ℤ) (a : Analysis) (c : Character) :
    0 ≤ journalXpGain now a c := by
  simp only [journalXpGain, calculateConsistencyBonus]
  apply jsRound_nonneg
  refine add_nonneg (add_nonneg (add_nonneg (add_nonneg
    (jsRound_cast_nonneg (by positivity)) (by positivity)) (by positivity))
    (by positivity)) (by positivity)

/-- The sub-linear level formula is monotone in xp (on nonnegative xp). -/
theorem levelPow_mono {x y : ℚ} (hx : 0 ≤ x) (hxy : x ≤ y) :
    levelPow x ≤ levelPow y := by
  unfold levelPow
  have hfb : ⌊x⌋.toNat / 1000 + 2 ≤ ⌊y⌋.toNat / 1000 + 2 :=
    Nat.add_le_add_right
      (Nat.div_le_div_right (Int.toNat_le_toNat (Int.floor_le_floor hxy))) 2
  have hP : ∀ n : ℕ, ((n : ℚ) ^ 5 * 1000 ^ 4 ≤ x ^ 4) →
      ((n : ℚ) ^ 5 * 1000 ^ 4 ≤ y ^ 4) :=
    fun n h => h.trans (pow_le_pow_left₀ hx hxy 4)
  have := Nat.findGreatest_mono hP hfb
  exact add_le_add_right (by exact_mod_cast this) 1

/-- The linear level formula is monotone in xp. -/
theorem levelLin_mono {x y : ℚ} (hxy : x ≤ y) : levelLin x ≤ levelLin y := by
  unfold levelLin
  have h : x / 1000 ≤ y / 1000 := by linarith
  exact add_le_add_right (Int.floor_le_floor h) 1

/-- One `statChanges` step keeps every stat in [1, 10]. -/
theorem applyStatChange_bounds (level : ℤ) (weights stats : StatMap)
    (kv : String × ℚ) (h : ∀ s, 1 ≤ stats s ∧ stats s ≤ 10) (s : Stat) :
    1 ≤ applyStatChange level weights stats kv s ∧
      applyStatChange level weights stats kv s ≤ 10 := by
  unfold applyStatChange
  rcases hso : statOfName kv.1 with _ | s0
  · exact h s
  · dsimp only
    by_cases hss : s = s0
    · rw [if_pos hss]
      exact clampQ_mem 1 10 _ (by norm_num)
    · rw [if_neg hss]
      exact h s

/-- The whole `statChanges` fold keeps every stat in [1, 10]. -/
theorem foldl_applyStatChange_bounds (level : ℤ) (weights : StatMap)
    (l : List (String × ℚ)) :
    ∀ stats : StatMap, (∀ s, 1 ≤ stats s ∧ stats s ≤ 10) →
      ∀ s, 1 ≤ (l.foldl (applyStatChange level weights) stats) s ∧
        (l.foldl (applyStatChange level weights) stats) s ≤ 10 := by
  induction l with
  | nil => intro stats h s; exact h s
  | cons kv tl ih =>
      intro stats h s
      exact ih _ (applyStatChange_bounds level weights stats kv h) s

/-- Journal progression keeps every stat in [1, 10]. -/
theorem updateCharacterProgress_stats_bounds (now : ℤ) (a : Analysis)
    (c : Character) (h : ∀ s, 1 ≤ c.stats s ∧ c.stats s ≤ 10) (s : Stat) :
    1 ≤ (updateCharacterProgress now a c).stats s ∧
      (updateCharacterProgress now a c).stats s ≤ 10 :=
  foldl_applyStatChange_bounds _ _ _ _ h s

/-- The server reward application keeps every stat in [1, 10]. -/
theorem applyRewardRoutes_stats_bounds (now : ℤ) (r : ScaledRewards)
    (c : Character) (h : ∀ s, 1 ≤ c.stats s ∧ c.stats s ≤ 10) (s : Stat) :
    1 ≤ (applyRewardRoutes now r c).stats s ∧
      (applyRewardRoutes now r c).stats s ≤ 10 := by
  simp only [applyRewardRoutes]
  constructor
  · split
    · exact (h s).1
    · exact (clampQ_mem 1 10 _ (by norm_num)).1
  · split
    · exact (h s).2
    · exact (clampQ_mem 1 10 _ (by norm_num)).2

/-- One engine call keeps every stat in [1, 10]. -/
theorem runOp_stats_bounds (c : Character) (op : EngineOp)
    (h : ∀ s, 1 ≤ c.stats s ∧ c.stats s ≤ 10) (s : Stat) :
    1 ≤ (runOp c op).stats s ∧ (runOp c op).stats s ≤ 10 := by
  cases op with
  | journal now a => exact updateCharacterProgress_stats_bounds now a c h s
  | reward now raw d => exact applyRewardRoutes_stats_bounds now _ c h s

/-- Every engine trace keeps every stat in [1, 10]. -/
theorem runOps_stats_bounds (ops : List EngineOp) :
    ∀ c : Character, (∀ s, 1 ≤ c.stats s ∧ c.stats s ≤ 10) →
      ∀ s, 1 ≤ (runOps c ops).stats s ∧ (runOps c ops).stats s ≤ 10 := by
  induction ops with
  | nil => intro c h s; exact h s
  | cons op tl ih =>
      intro c h s
      exact ih _ (runOp_stats_bounds c op h) s

/-- Every stat weight is below the maximum weight. -/
theorem le_maxW (w : StatMap) (s : Stat) : w s ≤ maxW w := by
  simp only [maxW]
  cases s
  · exact le_max_left _ _
  · exact (le_max_left _ _).trans (le_max_right _ _)
  · exact ((le_max_left _ _).trans (le_max_right _ _)).trans (le_max_right _ _)
  · exact (((le_max_left _ _).trans (le_max_right _ _)).trans
      (le_max_right _ _)).trans (le_max_right _ _)
  · exact ((((le_max_left _ _).trans (le_max_right _ _)).trans
      (le_max_right _ _)).trans (le_max_right _ _)).trans (le_max_right _ _)
  · exact ((((le_max_right _ _).trans (le_max_right _ _)).trans
      (le_max_right _ _)).trans (le_max_right _ _)).trans (le_max_right _ _)

/-- The maximum weight commutes with scaling by a nonnegative constant. -/
theorem maxW_mul (w : StatMap) (c : ℚ) (hc : 0 ≤ c) :
    maxW (fun s => w s * c) = maxW w * c := by
  simp only [maxW]
  rw [max_mul_of_nonneg _ _ hc, max_mul_of_nonneg _ _ hc, max_mul_of_nonneg _ _ hc,
    max_mul_of_nonneg _ _ hc, max_mul_of_nonneg _ _ hc]

/-! ### Remaining claim theorems -/

/-- C1 (amended): along every sequence of journal progressions and
quest-completion reward applications of `src/server/routes.ts`, starting
from the default character, every stat stays within
[MIN_STAT_VALUE, MAX_STAT_VALUE] = [1, 20] — indeed within the tighter
[1, 10] that those code paths clamp to.  (The `part_005` reward
application does NOT clamp and violates the bounds — see the
counterexample.) -/
theorem stat_bounds_invariant (ops : List EngineOp) (s : Stat) :
    1 ≤ (runOps DEFAULT_CHARACTER ops).stats s ∧
      (runOps DEFAULT_CHARACTER ops).stats s ≤ 20 := by
  have h := runOps_stats_bounds ops DEFAULT_CHARACTER
    (fun s => by norm_num [DEFAULT_CHARACTER]) s
  exact ⟨h.1, h.2.trans (by norm_num)⟩

/-- C1 counterexample: the `part_005` reward application
(`updateCharacterProgress` in `src/unnamed/part_005`, reached from its
quest-completion route) adds stat updates WITHOUT clamping: one call with
the in-range update `{strength: -0.5}` on the default character leaves
strength at 0.5, strictly below `MIN_STAT_VALUE = 1` (and symmetric
accumulation above 20 is equally unchecked). -/
theorem stat_bounds_counterexample :
    (applyReward005 0 ⟨0, [("strength", -(1/2))], []⟩ DEFAULT_CHARACTER).stats
      .strength = 1/2 ∧ ¬ ((1 : ℚ) ≤ 1/2) := by
  constructor
  · have h : statOfName "strength" = some Stat.strength := rfl
    norm_num [applyReward005, h, DEFAULT_CHARACTER]
  · norm_num

/-- C2 (amended): xp never decreases under the journal progression, nor
under the server reward application when the scaled reward xp is
nonnegative; and each of the two level formulas is monotone in xp.  The
two paths use DIFFERENT formulas (`floor((xp/1000)^0.8)+1` for journals,
`floor(xp/1000)+1` for completions), so the stored level can decrease
across alternating update types — see the counterexample. -/
theorem xp_level_monotonic :
    (∀ (now : ℤ) (a : Analysis) (c : Character),
      c.xp ≤ (updateCharacterProgress now a c).xp) ∧
    (∀ (now : ℤ) (r : ScaledRewards) (c : Character), 0 ≤ r.xpGained →
      c.xp ≤ (applyRewardRoutes now r c).xp) ∧
    (∀ x y : ℚ, 0 ≤ x → x ≤ y → levelPow x ≤ levelPow y) ∧
    (∀ x y : ℚ, x ≤ y → levelLin x ≤ levelLin y) := by
  refine ⟨fun now a c => ?_, fun now r c h => ?_,
    fun x y hx hxy => levelPow_mono hx hxy, fun x y hxy => levelLin_mono hxy⟩
  · simp only [updateCharacterProgress]
    have h0 : (0 : ℚ) ≤ ((journalXpGain now a c : ℤ) : ℚ) := by
      exact_mod_cast journalXpGain_nonneg now a c
    linarith
  · simp only [applyRewardRoutes]
    have h0 : (0 : ℚ) ≤ ((r.xpGained : ℤ) : ℚ) := by exact_mod_cast h
    linarith

/-- Witness for `xp_level_monotonic` at concrete inputs. -/
theorem xp_level_monotonic_witness :
    DEFAULT_CHARACTER.xp ≤ (updateCharacterProgress 0 fallbackAnalysis DEFAULT_CHARACTER).xp ∧
    DEFAULT_CHARACTER.xp ≤ (applyRewardRoutes 0 ⟨7, [], []⟩ DEFAULT_CHARACTER).xp ∧
    levelPow 0 ≤ levelPow 2061 ∧ levelLin 0 ≤ levelLin 2061 :=
  ⟨xp_level_monotonic.1 0 fallbackAnalysis DEFAULT_CHARACTER,
   xp_level_monotonic.2.1 0 ⟨7, [], []⟩ DEFAULT_CHARACTER (by norm_num),
   xp_level_monotonic.2.2.1 0 2061 (by norm_num) (by norm_num),
   xp_level_monotonic.2.2.2 0 2061 (by norm_num)⟩

/-- C2 counterexample: from the default character, one server quest
completion with raw reward xp 1818 (scaled to 2000) sets level
`floor(2000/1000)+1 = 3`; a following journal entry with the neutral
fallback analysis raises xp to 2061 but RECOMPUTES the level as
`floor((2061/1000)^0.8)+1 = 2` — the level decreases from 3 to 2 across
alternating update types.  Moreover a negative raw reward xp decreases
xp itself. -/
theorem xp_level_monotonic_counterexample :
    (runOps DEFAULT_CHARACTER [.reward 0 ⟨1818, [], []⟩ 1]).level = 3 ∧
    (runOps DEFAULT_CHARACTER
      [.reward 0 ⟨1818, [], []⟩ 1, .journal 0 fallbackAnalysis]).level = 2 ∧
    ¬ ((3 : ℤ) ≤ 2) ∧
    (runOps DEFAULT_CHARACTER [.reward 0 ⟨-100, [], []⟩ 1]).xp < DEFAULT_CHARACTER.xp := by
  refine ⟨?_, ?_, by norm_num, ?_⟩
  · norm_num [runOps, runOp, applyRewardRoutes, scaleRewards, difficultyMultiplier,
      levelLin, jsRound, DEFAULT_CHARACTER, max_def, min_def]
  · have htn : (2061 : ℤ).toNat = 2061 := rfl
    norm_num [runOps, runOp, applyRewardRoutes, scaleRewards, difficultyMultiplier,
      updateCharacterProgress, journalXpGain, calculateConsistencyBonus, recentCount,
      fallbackAnalysis, levelLin, levelPow, Nat.findGreatest, jsRound,
      DEFAULT_CHARACTER, max_def, min_def, htn]
  · norm_num [runOps, runOp, applyRewardRoutes, scaleRewards, difficultyMultiplier,
      jsRound, DEFAULT_CHARACTER, max_def, min_def]

/-- C7: with the neutral fallback analysis substituted after an analysis
failure, the journal progression still completes (it is a total function
in this model) and raises xp by at least `BASE_XP = 50` for every
character of level ≥ 1. -/
theorem fallback_xp_gain (now : ℤ) (c : Character) (h : 1 ≤ c.level) :
    c.xp + 50 ≤ (updateCharacterProgress now fallbackAnalysis c).xp := by
  have hlz : ¬ c.level = 0 := by omega
  have hgain : (50 : ℤ) ≤ journalXpGain now fallbackAnalysis c := by
    have hs : (1 : ℚ) ≤ (11/10 : ℚ) ^ (c.level - 1) :=
      one_le_zpow₀ (by norm_num) (by omega)
    have hbase : (50 : ℤ) ≤ jsRound (50 * (11/10 : ℚ) ^ (c.level - 1)) := by
      have h50 : (50 : ℚ) ≤ 50 * (11/10 : ℚ) ^ (c.level - 1) := by nlinarith
      calc (50 : ℤ) = jsRound 50 := by norm_num [jsRound]
        _ ≤ _ := jsRound_mono h50
    have hcb : (0 : ℤ) ≤ calculateConsistencyBonus now c := by
      simp only [calculateConsistencyBonus]
      positivity
    simp only [journalXpGain, fallbackAnalysis, if_neg hlz, List.length_nil,
      Nat.cast_zero, zero_mul, add_zero]
    calc (50 : ℤ) = jsRound 50 := by norm_num [jsRound]
      _ ≤ _ := by
          apply jsRound_mono
          have hb : (50 : ℚ) ≤ ((jsRound (50 * (11/10 : ℚ) ^ (c.level - 1)) : ℤ) : ℚ) := by
            exact_mod_cast hbase
          have hc : (0 : ℚ) ≤ ((calculateConsistencyBonus now c : ℤ) : ℚ) := by
            exact_mod_cast hcb
          linarith
  simp only [updateCharacterProgress]
  have h50 : (50 : ℚ) ≤ ((journalXpGain now fallbackAnalysis c : ℤ) : ℚ) := by
    exact_mod_cast hgain
  linarith

/-- Witness for `fallback_xp_gain` at the default character. -/
theorem fallback_xp_gain_witness :
    (1 : ℤ) ≤ DEFAULT_CHARACTER.level ∧
    DEFAULT_CHARACTER.xp + 50 ≤
      (updateCharacterProgress 0 fallbackAnalysis DEFAULT_CHARACTER).xp :=
  ⟨by norm_num [DEFAULT_CHARACTER],
   fallback_xp_gain 0 DEFAULT_CHARACTER (by norm_num [DEFAULT_CHARACTER])⟩

/-- C3 (amended): the ENHANCED weight calculator (`src/client/src/main.tsx`)
returns weights of at most 2.0 for every analysis and every level-scaling
factor, and whenever the pre-normalization maximum exceeds 2.0 the
rescaled maximum is exactly 2.0.  (The `src/server/routes.ts` copy has no
normalization step and can exceed 2.0 — see the counterexample.) -/
theorem weight_cap_client (a : Analysis) (lvlScale : ℚ) :
    (∀ s, clientStatWeights a lvlScale s ≤ 2) ∧
    (2 < maxW (clientPreWeights a lvlScale) →
      maxW (clientStatWeights a lvlScale) = 2) := by
  constructor
  · intro s
    unfold clientStatWeights normalizeW
    by_cases hM : 2 < maxW (clientPreWeights a lvlScale)
    · rw [if_pos hM]
      have hM0 : (0 : ℚ) < maxW (clientPreWeights a lvlScale) := lt_trans two_pos hM
      have hw := le_maxW (clientPreWeights a lvlScale) s
      rw [div_mul_eq_mul_div, div_le_iff₀ hM0]
      nlinarith
    · rw [if_neg hM]
      exact (le_maxW _ s).trans (not_lt.mp hM)
  · intro hM
    unfold clientStatWeights normalizeW
    rw [if_pos hM]
    have hM0 : (0 : ℚ) < maxW (clientPreWeights a lvlScale) := lt_trans two_pos hM
    have heq : (fun s => clientPreWeights a lvlScale s / maxW (clientPreWeights a lvlScale) * 2)
        = fun s => clientPreWeights a lvlScale s * (2 / maxW (clientPreWeights a lvlScale)) := by
      funext s
      ring
    rw [heq, maxW_mul _ _ (by positivity)]
    field_simp

/-- Witness for `weight_cap_client`: the neutral analysis with level factor
3 has pre-normalization maximum 3.15 > 2, and the normalized maximum is
exactly 2. -/
theorem weight_cap_client_witness :
    maxW (clientStatWeights fallbackAnalysis 3) = 2 ∧
    clientStatWeights fallbackAnalysis 3 .strength ≤ 2 :=
  ⟨(weight_cap_client fallbackAnalysis 3).2 (by
      have h1 : (List.filter (fun kw => strIncludes (lowerStr "") kw)
        ["exercise", "physical", "strength", "power", "lifting", "sports"]).length = 0 := by
        decide
      have h2 : (List.filter (fun kw => strIncludes (lowerStr "") kw)
        ["agility", "balance", "coordination", "reflex", "speed", "craft"]).length = 0 := by
        decide
      have h3 : (List.filter (fun kw => strIncludes (lowerStr "") kw)
        ["health", "endurance", "stamina", "wellness", "resilience"]).length = 0 := by
        decide
      have h4 : (List.filter (fun kw => strIncludes (lowerStr "") kw)
        ["study", "learn", "research", "analysis", "problem-solving"]).length = 0 := by
        decide
      have h5 : (List.filter (fun kw => strIncludes (lowerStr "") kw)
        ["reflection", "meditation", "insight", "awareness", "mindfulness"]).length = 0 := by
        decide
      have h6 : (List.filter (fun kw => strIncludes (lowerStr "") kw)
        ["social", "leadership", "communication", "persuasion", "empathy"]).length = 0 := by
        decide
      simp [maxW, clientPreWeights, clientKwWeight, emotionalImpact, insightFactor,
        skillFactor, fallbackAnalysis, STAT_KEYWORDS, h1, h2, h3, h4, h5, h6]
      norm_num [max_def]),
   (weight_cap_client fallbackAnalysis 3).1 .strength⟩

/-- C3 counterexample: the `src/server/routes.ts` weight calculator has no
normalization: for an analysis whose content contains all five wisdom
keywords, with positive mood and one insight, at level 6 the wisdom
weight is `1.5 * 1.1 * 1.1 * 1.12 = 2.0328 > 2`. -/
theorem weight_cap_counterexample :
    2 < calculateStatWeights exAnalysisC3 6 .wisdom := by
  have hm : serverStatMatches
      (lowerStr "reflection meditation insight awareness mindfulness") [] Stat.wisdom
      = 5 := by decide
  simp [calculateStatWeights, serverKwWeight, hm, serverMoodFactor, exAnalysisC3]
  norm_num

end RPG
